import Mathlib

/-!
Shallow embedding of the handle-ownership, type-dispatch, keep-alive and
stream-adapter machinery of `cairocffi` (files `cairocffi/surfaces.py` and
`cairocffi/patterns.py`).

Modelling conventions:
* Raw foreign handles (`cairo_surface_t *`, `cairo_pattern_t *` cdata) are `Nat`,
  with `0` standing for the foreign null sentinel `ffi.NULL`.
* The foreign cairo library is an oracle (`Cairo`): a record of the pure
  observations the Python code makes of it (status queries, type-tag queries,
  returned handles, stride computation).
* Side effects of the Python code are made explicit in a `World` state:
  the process-wide `KeepAlive.instances` set, the destructors registered via
  `ffi.gc`, and the trace of mutating foreign calls issued.
* Exceptions are `Except CairoError`: a raised exception aborts the Python
  function but the side effects already performed persist in the `World`.
* Type tags and the callback status vocabulary are the strings the source uses
  (`'IMAGE'`, `'SUCCESS'`, `'READ_ERROR'`, ...); cairo status codes, whose
  checker lives outside the two source files, are modelled from the spec as
  integers with `0` = success.
-/

namespace Cairocffi

/-- The foreign null sentinel `ffi.NULL`, in the `Nat` encoding of handles. -/
def NULL : Nat := 0

/-- Errors raised by this layer: `StatusError(code)` from the status checker,
`ValueError(msg)` for a null handle or an undersized buffer. -/
inductive CairoError where
  | statusError (code : Nat)
  | valueError (msg : String)
  deriving DecidableEq, Repr

/-- The success status code; non-success codes are any other integer. -/
def STATUS_SUCCESS : Nat := 0

/-- Modelled from the spec: the `StatusChecker` (`_check_status`, imported by both
source files from the package root, which is not under `src/`) "translates a
foreign integer status code into a typed success/failure result"; "every
mutating or constructing operation checks status immediately and converts a
non-success code into a `StatusError` carrying the original code verbatim". -/
def _check_status (status : Nat) : Except CairoError Unit :=
  if status = STATUS_SUCCESS then Except.ok () else Except.error (CairoError.statusError status)

/-! ### Stream adapters (`_make_read_func`, `_make_write_func`, surfaces.py lines 24-45) -/

/-- Semantics of the cffi buffer slice assignment
`ffi.buffer(data, length)[:len(string)] = string`: writing `s` over the first
`s.length` bytes of `buf` succeeds when it fits, otherwise the assignment
raises (and the surrounding `ffi.callback` returns its error value). -/
def bufferSliceAssign (buf s : List Nat) : Option (List Nat) :=
  if s.length ≤ buf.length then some (s ++ buf.drop s.length) else none

/-- The callback body built by `_make_read_func(file_obj)` (surfaces.py lines 26-32):
`string = file_obj.read(length)`; a short read returns `'READ_ERROR'`; otherwise
the bytes are copied into the foreign buffer and `'SUCCESS'` is returned.
`file_read` is the local source's `read` method; `buf` is the foreign
destination buffer `ffi.buffer(data, length)` (so `buf.length = length`);
the result is the returned status string and the buffer contents after the call. -/
def read_func (file_read : Nat → List Nat) (buf : List Nat) (length : Nat) :
    String × List Nat :=
  let string := file_read length
  if string.length < length then ("READ_ERROR", buf)
  else
    match bufferSliceAssign buf string with
    | some buf2 => ("SUCCESS", buf2)
    | none => ("READ_ERROR", buf)

/-- The callback body built by `_make_write_func(file_obj)` (surfaces.py lines 41-44):
`file_obj.write(ffi.buffer(data, length))` then `'SUCCESS'`; if the sink's
`write` raises, the `ffi.callback` error value `'WRITE_ERROR'` is returned
instead. `write_raises` models which payloads make the sink raise; `sink` is
the byte stream the sink has received so far. -/
def write_func (write_raises : List Nat → Bool) (sink : List Nat) (data : List Nat) :
    String × List Nat :=
  if write_raises data then ("WRITE_ERROR", sink)
  else ("SUCCESS", sink ++ data)

/-! ### The foreign library oracle and the side-effect state -/

/-- Mutating (resource-affecting) foreign entry points the embedded code can
invoke, recorded as a trace. Pure queries (status, type tag) are read from the
oracle and not traced. -/
inductive ForeignCall where
  | surface_reference (handle : Nat)
  | pattern_reference (handle : Nat)
  | surface_set_user_data (handle : Nat)
  | surface_set_mime_data (handle : Nat)
  | image_surface_create (format : String) (width height : Nat)
  | image_surface_create_for_data (address : Nat) (format : String)
      (width height : Nat) (stride : Int)
  | format_stride_for_width (format : String) (width : Nat)
  deriving DecidableEq, Repr

/-- The foreign cairo library as an oracle: what each query answers and which
handle each creating entry point returns. Statuses are integers per the spec
(`0` = success); type tags are the strings cffi hands back. -/
structure Cairo where
  surface_status : Nat → Nat
  pattern_status : Nat → Nat
  surface_get_type : Nat → String
  pattern_get_type : Nat → String
  surface_set_user_data_status : Nat → Nat
  surface_set_mime_data_status : Nat → Nat
  image_surface_create : String → Nat → Nat → Nat
  image_surface_create_for_data : Nat → String → Nat → Nat → Int → Nat
  format_stride_for_width : String → Nat → Int

/-- The observable side-effect state of the embedded code:
`registry` is `KeepAlive.instances` (bundles identified by allocation order,
since Python set membership is object identity); `nextId` supplies fresh
bundle identities; `surfaceDestroyRegistered` / `patternDestroyRegistered`
list the handles for which `ffi.gc(pointer, cairo_surface_destroy)` /
`ffi.gc(pointer, cairo_pattern_destroy)` destructors have been registered;
`calls` is the trace of mutating foreign calls issued. -/
structure World where
  registry : List Nat
  nextId : Nat
  surfaceDestroyRegistered : List Nat
  patternDestroyRegistered : List Nat
  calls : List ForeignCall
  deriving DecidableEq, Repr

/-- The state before any of the embedded code has run. -/
def World.empty : World := ⟨[], 0, [], [], []⟩

/-! ### KeepAlive (surfaces.py lines 70-91) -/

/-- `KeepAlive.__init__(self, *objects)`: allocates a fresh bundle (its Python
object identity) and builds the destroy callback closure. Nothing is added to
`instances` yet. -/
def KeepAlive.new (w : World) : Nat × World :=
  (w.nextId, { w with nextId := w.nextId + 1 })

/-- `KeepAlive.save(self)`: `self.instances.add(self)` — Python set add. -/
def registrySave (reg : List Nat) (ka : Nat) : List Nat :=
  reg.insert ka

/-- The destroy callback `lambda _: self.instances.remove(self)` — Python
`set.remove`, which raises `KeyError` (here `none`) when the element is absent. -/
def registryRelease (reg : List Nat) (ka : Nat) : Option (List Nat) :=
  if ka ∈ reg then some (reg.erase ka) else none

/-- The two operations that mutate `KeepAlive.instances`: local `save` and the
foreign-invoked destroy callback. -/
inductive RegOp where
  | save (ka : Nat)
  | release (ka : Nat)
  deriving DecidableEq, Repr

/-- One registry mutation; a failed `release` (KeyError inside the callback)
leaves the set unchanged. -/
def regStep (reg : List Nat) : RegOp → List Nat
  | RegOp.save ka => registrySave reg ka
  | RegOp.release ka => (registryRelease reg ka).getD reg

/-- `KeepAlive.save` lifted to the world state. -/
def KeepAlive.save (w : World) (ka : Nat) : World :=
  { w with registry := registrySave w.registry ka }

/-! ### Surface and Pattern construction (surfaces.py lines 122-132, patterns.py lines 35-40) -/

/-- The `target_keep_alive` argument of `Surface.__init__`: Python `None`, the
cffi `ffi.NULL` sentinel (a `_make_write_func` result when no file object was
given), or a live Python object (a data buffer or a write callback). -/
inductive Target where
  | none
  | null
  | obj
  deriving DecidableEq, Repr

/-- `Surface.__init__(self, pointer, target_keep_alive=None)` (surfaces.py 122-129):
`self._pointer = ffi.gc(pointer, cairo.cairo_surface_destroy)` registers the
destructor first; `self._check_status()` may raise; then, when
`target_keep_alive not in (None, ffi.NULL)`, a `KeepAlive` bundle is built,
`cairo_surface_set_user_data` is called with its closure, its status is
checked, and only then is the bundle saved. -/
def Surface.init (c : Cairo) (w : World) (pointer : Nat) (target_keep_alive : Target) :
    World × Except CairoError Unit :=
  let w := { w with surfaceDestroyRegistered := w.surfaceDestroyRegistered ++ [pointer] }
  match _check_status (c.surface_status pointer) with
  | Except.error e => (w, Except.error e)
  | Except.ok _ =>
    match target_keep_alive with
    | Target.none => (w, Except.ok ())
    | Target.null => (w, Except.ok ())
    | Target.obj =>
      let (ka, w) := KeepAlive.new w
      let w := { w with calls := w.calls ++ [ForeignCall.surface_set_user_data pointer] }
      match _check_status (c.surface_set_user_data_status pointer) with
      | Except.error e => (w, Except.error e)
      | Except.ok _ => (KeepAlive.save w ka, Except.ok ())

/-- `Pattern.__init__(self, pointer)` (patterns.py 35-37):
`self._pointer = ffi.gc(pointer, cairo.cairo_pattern_destroy)` then
`self._check_status()`. -/
def Pattern.init (c : Cairo) (w : World) (pointer : Nat) :
    World × Except CairoError Unit :=
  let w := { w with patternDestroyRegistered := w.patternDestroyRegistered ++ [pointer] }
  (w, _check_status (c.pattern_status pointer))

/-- Modelled from the spec: `ffi.gc` destructor semantics (cffi is the excluded
collaborator): at the wrapper's teardown each registered destructor is invoked
exactly once — the destroy calls issued on surface handles are exactly the
registrations, in order. -/
def teardownSurfaceDestroys (w : World) : List Nat :=
  w.surfaceDestroyRegistered

/-- Modelled from the spec: as `teardownSurfaceDestroys`, for
`cairo_pattern_destroy` registrations. -/
def teardownPatternDestroys (w : World) : List Nat :=
  w.patternDestroyRegistered

/-! ### `Surface.set_mime_data` (surfaces.py lines 427-440) -/

/-- `Surface.set_mime_data(self, mime_type, data)`: with `data is None`, one
`cairo_surface_set_mime_data` call clearing the slot, status checked; with
data, a `KeepAlive(data, mime_type)` bundle is built, the foreign call made
with its closure, its status checked, and `keep_alive.save()` runs only on
success. -/
def Surface.set_mime_data (c : Cairo) (w : World) (pointer : Nat)
    (data : Option (List Nat)) : World × Except CairoError Unit :=
  match data with
  | Option.none =>
    let w := { w with calls := w.calls ++ [ForeignCall.surface_set_mime_data pointer] }
    (w, _check_status (c.surface_set_mime_data_status pointer))
  | Option.some _ =>
    let (ka, w) := KeepAlive.new w
    let w := { w with calls := w.calls ++ [ForeignCall.surface_set_mime_data pointer] }
    match _check_status (c.surface_set_mime_data_status pointer) with
    | Except.error e => (w, Except.error e)
    | Except.ok _ => (KeepAlive.save w ka, Except.ok ())

/-- Operations performed on a live surface wrapper between its construction and
its teardown, in the fragment embedded here. -/
inductive SurfaceOp where
  | set_mime_data (data : Option (List Nat))
  deriving DecidableEq, Repr

/-- Run a sequence of operations on the wrapper of `pointer` (a raised
exception aborts one operation, not the sequence — the caller catches it). -/
def Surface.runOps (c : Cairo) (w : World) (pointer : Nat) : List SurfaceOp → World
  | [] => w
  | SurfaceOp.set_mime_data d :: ops =>
    Surface.runOps c (Surface.set_mime_data c w pointer d).1 pointer ops

/-! ### Polymorphic re-hydration (surfaces.py lines 134-153 and 1268-1273,
patterns.py lines 42-61 and 366-371) -/

/-- The concrete surface classes defined in surfaces.py. -/
inductive SurfaceClass where
  | Surface
  | ImageSurface
  | PDFSurface
  | PSSurface
  | SVGSurface
  | RecordingSurface
  deriving DecidableEq, Repr

/-- `SURFACE_TYPE_TO_CLASS` (surfaces.py 1268-1273), keyed by the cffi enum
string for `cairo_surface_type_t`. -/
def SURFACE_TYPE_TO_CLASS : List (String × SurfaceClass) :=
  [("IMAGE", SurfaceClass.ImageSurface),
   ("PDF", SurfaceClass.PDFSurface),
   ("SVG", SurfaceClass.SVGSurface),
   ("RECORDING", SurfaceClass.RecordingSurface)]

/-- The concrete pattern classes defined in patterns.py. -/
inductive PatternClass where
  | Pattern
  | SolidPattern
  | SurfacePattern
  | Gradient
  | LinearGradient
  | RadialGradient
  deriving DecidableEq, Repr

/-- `PATTERN_TYPE_TO_CLASS` (patterns.py 366-371). -/
def PATTERN_TYPE_TO_CLASS : List (String × PatternClass) :=
  [("SOLID", PatternClass.SolidPattern),
   ("SURFACE", PatternClass.SurfacePattern),
   ("LINEAR", PatternClass.LinearGradient),
   ("RADIAL", PatternClass.RadialGradient)]

/-- `Surface._from_pointer(pointer, incref)` (surfaces.py 134-153): raise
`ValueError('Null pointer')` on `ffi.NULL`; `cairo_surface_reference` when
`incref`; pick the class via `SURFACE_TYPE_TO_CLASS.get(type, Surface)`; then
run `Surface.__init__` directly, skipping the subclass `__init__`. Returns the
class of the wrapper built. -/
def Surface._from_pointer (c : Cairo) (w : World) (pointer : Nat) (incref : Bool) :
    World × Except CairoError SurfaceClass :=
  if pointer = NULL then (w, Except.error (CairoError.valueError "Null pointer"))
  else
    let w := if incref then
      { w with calls := w.calls ++ [ForeignCall.surface_reference pointer] } else w
    let cls := (SURFACE_TYPE_TO_CLASS.lookup (c.surface_get_type pointer)).getD
      SurfaceClass.Surface
    let (w, r) := Surface.init c w pointer Target.none
    (w, r.map fun _ => cls)

/-- `Pattern._from_pointer(pointer, incref)` (patterns.py 42-61), the pattern
counterpart of `Surface._from_pointer`. -/
def Pattern._from_pointer (c : Cairo) (w : World) (pointer : Nat) (incref : Bool) :
    World × Except CairoError PatternClass :=
  if pointer = NULL then (w, Except.error (CairoError.valueError "Null pointer"))
  else
    let w := if incref then
      { w with calls := w.calls ++ [ForeignCall.pattern_reference pointer] } else w
    let cls := (PATTERN_TYPE_TO_CLASS.lookup (c.pattern_get_type pointer)).getD
      PatternClass.Pattern
    let (w, r) := Pattern.init c w pointer
    (w, r.map fun _ => cls)

/-! ### `from_buffer` and `ImageSurface.__init__` (surfaces.py lines 55-67, 632-644) -/

/-- A Python buffer object as `from_buffer` observes it: an optional
`buffer_info()` with `itemsize` (array.array-like), else an address via
`ctypes.c_char.from_buffer` and a `len`. -/
structure PyBuffer where
  buffer_info : Option (Nat × Nat)
  itemsize : Nat
  address : Nat
  len : Nat
  deriving DecidableEq, Repr

/-- `from_buffer(obj)` (surfaces.py 55-67): `(pointer_address, length_in_bytes)`. -/
def from_buffer (obj : PyBuffer) : Nat × Nat :=
  match obj.buffer_info with
  | Option.some (address, length) => (address, length * obj.itemsize)
  | Option.none => (obj.address, obj.len)

/-- `ImageSurface.__init__(self, format, width, height, data=None, stride=None)`
(surfaces.py 632-644): without data, `cairo_image_surface_create`; with data,
the stride defaults to `format_stride_for_width`, the buffer length is
validated against `stride * height` (raising `ValueError` before any foreign
constructor call), then `cairo_image_surface_create_for_data` runs and
`Surface.__init__` is entered with `target_keep_alive=data`. -/
def ImageSurface.init (c : Cairo) (w : World) (format : String) (width height : Nat)
    (data : Option PyBuffer) (stride? : Option Int) : World × Except CairoError Unit :=
  match data with
  | Option.none =>
    let w := { w with calls := w.calls ++ [ForeignCall.image_surface_create format width height] }
    let pointer := c.image_surface_create format width height
    Surface.init c w pointer Target.none
  | Option.some d =>
    let (stride, w) :=
      match stride? with
      | Option.some s => (s, w)
      | Option.none =>
        (c.format_stride_for_width format width,
         { w with calls := w.calls ++ [ForeignCall.format_stride_for_width format width] })
    let (address, length) := from_buffer d
    if (length : Int) < stride * (height : Int) then
      (w, Except.error (CairoError.valueError
        ("Got a " ++ toString length ++ " bytes buffer, needs at least " ++
         toString (stride * (height : Int)) ++ ".")))
    else
      let w := { w with calls := w.calls ++
        [ForeignCall.image_surface_create_for_data address format width height stride] }
      let pointer := c.image_surface_create_for_data address format width height stride
      Surface.init c w pointer Target.obj

/-! ### Helper lemmas -/

/-- `Surface.__init__` registers the `cairo_surface_destroy` destructor for its
pointer exactly once, on every control path. -/
lemma Surface.init_surfaceDestroyRegistered (c : Cairo) (w : World) (p : Nat) (t : Target) :
    (Surface.init c w p t).1.surfaceDestroyRegistered =
      w.surfaceDestroyRegistered ++ [p] := by
  unfold Surface.init
  cases _check_status (c.surface_status p) with
  | error e => rfl
  | ok _ =>
    cases t with
    | none => rfl
    | null => rfl
    | obj =>
      cases _check_status (c.surface_set_user_data_status p) with
      | error e => rfl
      | ok _ => rfl

/-- `Pattern.__init__` registers the `cairo_pattern_destroy` destructor for its
pointer exactly once. -/
lemma Pattern.init_patternDestroyRegistered (c : Cairo) (w : World) (p : Nat) :
    (Pattern.init c w p).1.patternDestroyRegistered =
      w.patternDestroyRegistered ++ [p] := rfl

/-- `Surface.set_mime_data` never touches the `ffi.gc` destructor registrations. -/
lemma Surface.set_mime_data_destroyRegistered (c : Cairo) (w : World) (p : Nat)
    (d : Option (List Nat)) :
    (Surface.set_mime_data c w p d).1.surfaceDestroyRegistered =
      w.surfaceDestroyRegistered := by
  unfold Surface.set_mime_data
  cases d with
  | none => rfl
  | some d =>
    cases _check_status (c.surface_set_mime_data_status p) with
    | error e => rfl
    | ok _ => rfl

/-- No operation sequence on a live surface wrapper touches the destructor
registrations. -/
lemma Surface.runOps_destroyRegistered (c : Cairo) (p : Nat) (ops : List SurfaceOp) :
    ∀ w : World, (Surface.runOps c w p ops).surfaceDestroyRegistered =
      w.surfaceDestroyRegistered := by
  induction ops with
  | nil => intro w; rfl
  | cons op ops ih =>
    intro w
    cases op with
    | set_mime_data d =>
      rw [Surface.runOps, ih, Surface.set_mime_data_destroyRegistered]

/-! ### Claims -/

/-- C1: for every Surface or Pattern wrapper constructed around a raw foreign
handle, exactly one matching release call (`cairo_surface_destroy` /
`cairo_pattern_destroy`) is issued on that handle during the wrapper's
teardown — never more than once, never skipped — regardless of the operations
performed on the wrapper in between. -/
theorem handlebox_release_exactly_once (c : Cairo) (w : World) (pointer : Nat)
    (t : Target) (ops : List SurfaceOp) :
    (teardownSurfaceDestroys
        (Surface.runOps c (Surface.init c w pointer t).1 pointer ops)).count pointer
      = (teardownSurfaceDestroys w).count pointer + 1 ∧
    (teardownPatternDestroys (Pattern.init c w pointer).1).count pointer
      = (teardownPatternDestroys w).count pointer + 1 := by
  constructor
  · unfold teardownSurfaceDestroys
    rw [Surface.runOps_destroyRegistered, Surface.init_surfaceDestroyRegistered]
    simp [List.count_append]
  · unfold teardownPatternDestroys
    rw [Pattern.init_patternDestroyRegistered]
    simp [List.count_append]

/-- C2: when the status query on the handle reports non-success, construction
of a Surface or Pattern wrapper raises `StatusError` carrying that code, and
the handle is still released exactly once during teardown (the destructor was
registered before validation: no leak, no double free). -/
theorem handlebox_error_path_single_release (c : Cairo) (w : World) (pointer : Nat)
    (t : Target)
    (hs : c.surface_status pointer ≠ STATUS_SUCCESS)
    (hp : c.pattern_status pointer ≠ STATUS_SUCCESS) :
    (Surface.init c w pointer t).2 =
      Except.error (CairoError.statusError (c.surface_status pointer)) ∧
    (teardownSurfaceDestroys (Surface.init c w pointer t).1).count pointer
      = (teardownSurfaceDestroys w).count pointer + 1 ∧
    (Pattern.init c w pointer).2 =
      Except.error (CairoError.statusError (c.pattern_status pointer)) ∧
    (teardownPatternDestroys (Pattern.init c w pointer).1).count pointer
      = (teardownPatternDestroys w).count pointer + 1 := by
  refine ⟨?_, ?_, ?_, ?_⟩
  · unfold Surface.init _check_status
    simp [hs]
  · unfold teardownSurfaceDestroys
    rw [Surface.init_surfaceDestroyRegistered]
    simp [List.count_append]
  · unfold Pattern.init _check_status
    simp [hp]
  · unfold teardownPatternDestroys
    rw [Pattern.init_patternDestroyRegistered]
    simp [List.count_append]

/-- A concrete oracle whose status queries all report code 11
(`CAIRO_STATUS_INVALID_RESTORE`-style failure). -/
def cairoFail : Cairo where
  surface_status := fun _ => 11
  pattern_status := fun _ => 11
  surface_get_type := fun _ => "IMAGE"
  pattern_get_type := fun _ => "SOLID"
  surface_set_user_data_status := fun _ => 11
  surface_set_mime_data_status := fun _ => 11
  image_surface_create := fun _ _ _ => 1
  image_surface_create_for_data := fun _ _ _ _ _ => 1
  format_stride_for_width := fun _ width => 4 * (width : Int)

/-- Witness for C2 at a concrete failing oracle. -/
theorem handlebox_error_path_single_release_witness :
    (Surface.init cairoFail World.empty 1 Target.none).2 =
      Except.error (CairoError.statusError 11) ∧
    (teardownSurfaceDestroys (Surface.init cairoFail World.empty 1 Target.none).1).count 1
      = (teardownSurfaceDestroys World.empty).count 1 + 1 ∧
    (Pattern.init cairoFail World.empty 1).2 =
      Except.error (CairoError.statusError 11) ∧
    (teardownPatternDestroys (Pattern.init cairoFail World.empty 1).1).count 1
      = (teardownPatternDestroys World.empty).count 1 + 1 :=
  handlebox_error_path_single_release cairoFail World.empty 1 Target.none
    (by decide) (by decide)

/-- C8: re-hydrating the foreign null sentinel fails with
`ValueError('Null pointer')` and constructs no wrapper (the world is
unchanged), in both the Surface and the Pattern family. -/
theorem from_pointer_null_rejected (c : Cairo) (w : World) (incref : Bool) :
    Surface._from_pointer c w NULL incref =
      (w, Except.error (CairoError.valueError "Null pointer")) ∧
    Pattern._from_pointer c w NULL incref =
      (w, Except.error (CairoError.valueError "Null pointer")) := by
  constructor
  · unfold Surface._from_pointer
    simp
  · unfold Pattern._from_pointer
    simp

/-- A concrete oracle in which every call succeeds and handle 1 is a
PostScript surface (`cairo_surface_get_type` returns `'PS'`). -/
def cairoPS : Cairo where
  surface_status := fun _ => 0
  pattern_status := fun _ => 0
  surface_get_type := fun _ => "PS"
  pattern_get_type := fun _ => "SOLID"
  surface_set_user_data_status := fun _ => 0
  surface_set_mime_data_status := fun _ => 0
  image_surface_create := fun _ _ _ => 1
  image_surface_create_for_data := fun _ _ _ _ _ => 1
  format_stride_for_width := fun _ width => 4 * (width : Int)

/-- C3: evaluation at the failing input. `PSSurface` is a concrete variant
class defined in surfaces.py, yet `SURFACE_TYPE_TO_CLASS` has no `'PS'` entry,
so re-hydrating a valid PostScript surface handle yields the plain base
`Surface`, not `PSSurface` — contradicting the claim that every defined
concrete variant kind (including PostScript) re-hydrates to its matching
variant class. -/
theorem rehydrate_ps_falls_back_to_base :
    SURFACE_TYPE_TO_CLASS.lookup "PS" = Option.none ∧
    (Surface._from_pointer cairoPS World.empty 1 false).2 =
      Except.ok SurfaceClass.Surface ∧
    SurfaceClass.Surface ≠ SurfaceClass.PSSurface := by
  refine ⟨by decide, ?_, by decide⟩
  rfl

/-! ### C4: KeepAlive pinning happens only after foreign success -/

/-- C4: a `KeepAlive` bundle is saved into the process-wide registry only after
the foreign call depending on it has validated successfully: on any error path
of `Surface.__init__` or `Surface.set_mime_data` the registry is unchanged,
and on the success paths the freshly built bundle is inserted. -/
theorem keepalive_pinned_only_after_success (c : Cairo) (w : World) (pointer : Nat)
    (t : Target) (d : List Nat) :
    (∀ e, (Surface.init c w pointer t).2 = Except.error e →
      (Surface.init c w pointer t).1.registry = w.registry) ∧
    (∀ e, (Surface.set_mime_data c w pointer (Option.some d)).2 = Except.error e →
      (Surface.set_mime_data c w pointer (Option.some d)).1.registry = w.registry) ∧
    ((Surface.init c w pointer Target.obj).2 = Except.ok () →
      (Surface.init c w pointer Target.obj).1.registry =
        registrySave w.registry w.nextId) ∧
    ((Surface.set_mime_data c w pointer (Option.some d)).2 = Except.ok () →
      (Surface.set_mime_data c w pointer (Option.some d)).1.registry =
        registrySave w.registry w.nextId) := by
  refine ⟨?_, ?_, ?_, ?_⟩
  · intro e
    unfold Surface.init
    cases _check_status (c.surface_status pointer) with
    | error e2 => intro _; rfl
    | ok _ =>
      cases t with
      | none => intro h; cases h
      | null => intro h; cases h
      | obj =>
        cases _check_status (c.surface_set_user_data_status pointer) with
        | error e2 => intro _; rfl
        | ok _ => intro h; cases h
  · intro e
    unfold Surface.set_mime_data
    cases _check_status (c.surface_set_mime_data_status pointer) with
    | error e2 => intro _; rfl
    | ok _ => intro h; cases h
  · unfold Surface.init
    cases _check_status (c.surface_status pointer) with
    | error e2 => intro h; cases h
    | ok _ =>
      cases _check_status (c.surface_set_user_data_status pointer) with
      | error e2 => intro h; cases h
      | ok _ => intro _; rfl
  · unfold Surface.set_mime_data
    cases _check_status (c.surface_set_mime_data_status pointer) with
    | error e2 => intro h; cases h
    | ok _ => intro _; rfl

/-- Witness for C4 at concrete inputs: with the all-failing oracle nothing is
pinned, and with handle 2 under `cairoPS` (all statuses succeed) the bundle
with the next fresh identity is pinned. -/
theorem keepalive_pinned_only_after_success_witness :
    (Surface.init cairoFail World.empty 1 Target.obj).1.registry = World.empty.registry ∧
    (Surface.set_mime_data cairoFail World.empty 1 (Option.some [7])).1.registry =
      World.empty.registry ∧
    (Surface.set_mime_data cairoPS World.empty 2 (Option.some [7])).1.registry =
      registrySave World.empty.registry World.empty.nextId :=
  ⟨(keepalive_pinned_only_after_success cairoFail World.empty 1 Target.obj [7]).1
      (CairoError.statusError 11) rfl,
   (keepalive_pinned_only_after_success cairoFail World.empty 1 Target.obj [7]).2.1
      (CairoError.statusError 11) rfl,
   (keepalive_pinned_only_after_success cairoPS World.empty 2 Target.obj [7]).2.2.2 rfl⟩

/-! ### C5: pin / release lifecycle of the KeepAlive registry -/

/-- C5: pinning a bundle puts it in the registry; a later invocation of its
release callback removes exactly that bundle (it is gone afterwards, all other
members are untouched); no other registry operation — a save, or a release of
a different bundle — ever removes a pinned bundle; and every operation keeps
the registry a duplicate-free set. -/
theorem keepalive_release_removes_bundle (reg : List Nat) (ka : Nat)
    (hnd : reg.Nodup) :
    ka ∈ registrySave reg ka ∧
    (∀ r, registryRelease (registrySave reg ka) ka = Option.some r →
      ka ∉ r ∧ ∀ j, j ≠ ka → (j ∈ r ↔ j ∈ reg)) ∧
    (∀ op, op ≠ RegOp.release ka → ka ∈ reg → ka ∈ regStep reg op) ∧
    (∀ op, (regStep reg op).Nodup) := by
  refine ⟨List.mem_insert_self ka reg, ?_, ?_, ?_⟩
  · intro r hr
    have hmem : ka ∈ registrySave reg ka := List.mem_insert_self ka reg
    have hnd2 : (registrySave reg ka).Nodup := hnd.insert
    unfold registryRelease at hr
    rw [if_pos hmem] at hr
    cases hr
    constructor
    · intro hka
      rcases (hnd2.mem_erase_iff).mp hka with ⟨hne, _⟩
      exact hne rfl
    · intro j hj
      rw [hnd2.mem_erase_iff]
      unfold registrySave
      rw [List.mem_insert_iff]
      constructor
      · rintro ⟨_, h | h⟩
        · exact absurd h hj
        · exact h
      · intro h; exact ⟨hj, Or.inr h⟩
  · intro op hop hka
    cases op with
    | save j => exact List.mem_insert_of_mem hka
    | release j =>
      have hne : j ≠ ka := by
        intro h; subst h; exact hop rfl
      show ka ∈ (registryRelease reg j).getD reg
      unfold registryRelease
      by_cases hj : j ∈ reg
      · rw [if_pos hj]
        exact (hnd.mem_erase_iff).mpr ⟨fun h => hne h.symm, hka⟩
      · rw [if_neg hj]
        exact hka
  · intro op
    cases op with
    | save j => exact hnd.insert
    | release j =>
      show ((registryRelease reg j).getD reg).Nodup
      unfold registryRelease
      by_cases hj : j ∈ reg
      · rw [if_pos hj]
        exact hnd.erase j
      · rw [if_neg hj]
        exact hnd

/-- Witness for C5 on the concrete registry `[5]` with bundle `7`. -/
theorem keepalive_release_removes_bundle_witness :
    7 ∈ registrySave [5] 7 ∧
    (∀ r, registryRelease (registrySave [5] 7) 7 = Option.some r →
      7 ∉ r ∧ ∀ j, j ≠ 7 → (j ∈ r ↔ j ∈ [5])) ∧
    (∀ op, op ≠ RegOp.release 7 → 7 ∈ [5] → 7 ∈ regStep [5] op) ∧
    (∀ op, (regStep [5] op).Nodup) :=
  keepalive_release_removes_bundle [5] 7 (by decide)

/-! ### C6 / C7: the stream adapters -/

/-- C6: a read request for `L` bytes against a source returning fewer than `L`
yields `'READ_ERROR'` with the destination buffer untouched (no partial
success); against a source returning exactly `L` bytes it yields `'SUCCESS'`
with those bytes copied byte-for-byte into the destination buffer. -/
theorem read_adapter_exact_or_error (file_read : Nat → List Nat) (buf : List Nat)
    (L : Nat) (hbuf : buf.length = L) :
    ((file_read L).length < L →
      read_func file_read buf L = ("READ_ERROR", buf)) ∧
    ((file_read L).length = L →
      read_func file_read buf L = ("SUCCESS", file_read L)) := by
  constructor
  · intro h
    unfold read_func
    rw [if_pos h]
  · intro h
    unfold read_func bufferSliceAssign
    rw [if_neg (by rw [h]; exact Nat.lt_irrefl L)]
    rw [if_pos (by rw [h, hbuf])]
    rw [h, ← hbuf, List.drop_length, List.append_nil]

/-- Witness for C6: a 4-byte buffer, a source delivering 2 of 4 requested
bytes (error), and one delivering exactly 4 (copied verbatim). -/
theorem read_adapter_exact_or_error_witness :
    read_func (fun _ => [1, 2]) [0, 0, 0, 0] 4 = ("READ_ERROR", [0, 0, 0, 0]) ∧
    read_func (fun _ => [1, 2, 3, 4]) [0, 0, 0, 0] 4 = ("SUCCESS", [1, 2, 3, 4]) :=
  ⟨(read_adapter_exact_or_error (fun _ => [1, 2]) [0, 0, 0, 0] 4 rfl).1 (by decide),
   (read_adapter_exact_or_error (fun _ => [1, 2, 3, 4]) [0, 0, 0, 0] 4 rfl).2 rfl⟩

/-- C7: forwarding an `M`-byte foreign buffer hands the local sink exactly
those `M` bytes, in order, appended to its stream with no truncation or
duplication, and returns `'SUCCESS'`; when the sink's `write` raises, the
adapter returns `'WRITE_ERROR'` instead of letting the exception cross the
foreign boundary. -/
theorem write_adapter_forwards_exactly (write_raises : List Nat → Bool)
    (sink data : List Nat) :
    (write_raises data = false →
      write_func write_raises sink data = ("SUCCESS", sink ++ data)) ∧
    (write_raises data = true →
      write_func write_raises sink data = ("WRITE_ERROR", sink)) := by
  constructor <;> intro h <;> unfold write_func <;> rw [h] <;> rfl

/-- Witness for C7 on a concrete sink and payload. -/
theorem write_adapter_forwards_exactly_witness :
    write_func (fun _ => false) [9] [1, 2, 3] = ("SUCCESS", [9, 1, 2, 3]) ∧
    write_func (fun _ => true) [9] [1, 2, 3] = ("WRITE_ERROR", [9]) :=
  ⟨(write_adapter_forwards_exactly (fun _ => false) [9] [1, 2, 3]).1 rfl,
   (write_adapter_forwards_exactly (fun _ => true) [9] [1, 2, 3]).2 rfl⟩

/-! ### C10: ImageSurface buffer length validation -/

/-- C10: constructing an `ImageSurface` over a caller-supplied buffer whose
byte length is below `stride * height` (stride defaulting to
`format_stride_for_width`) raises `ValueError` before the foreign constructor
runs: no surface is created, no destructor registered, nothing pinned, and the
only foreign call possibly issued is the stride computation. -/
theorem image_surface_short_buffer_rejected (c : Cairo) (w : World) (format : String)
    (width height : Nat) (d : PyBuffer) (stride? : Option Int)
    (hlt : ((from_buffer d).2 : Int) <
      (stride?.getD (c.format_stride_for_width format width)) * (height : Int)) :
    (ImageSurface.init c w format width height (Option.some d) stride?).2 =
      Except.error (CairoError.valueError
        ("Got a " ++ toString (from_buffer d).2 ++ " bytes buffer, needs at least " ++
         toString ((stride?.getD (c.format_stride_for_width format width)) *
           (height : Int)) ++ ".")) ∧
    (ImageSurface.init c w format width height (Option.some d) stride?).1.registry =
      w.registry ∧
    (ImageSurface.init c w format width height
        (Option.some d) stride?).1.surfaceDestroyRegistered =
      w.surfaceDestroyRegistered ∧
    (∀ call ∈ (ImageSurface.init c w format width height
        (Option.some d) stride?).1.calls,
      call ∈ w.calls ∨ call = ForeignCall.format_stride_for_width format width) := by
  cases stride? with
  | none =>
    cases hfb : from_buffer d with
    | mk address length =>
      rw [hfb] at hlt
      simp only [Option.getD_none] at hlt
      simp only [ImageSurface.init, hfb, Option.getD_none]
      rw [if_pos hlt]
      refine ⟨rfl, rfl, rfl, ?_⟩
      intro call hcall
      rcases List.mem_append.mp hcall with h | h
      · exact Or.inl h
      · exact Or.inr (List.mem_singleton.mp h)
  | some s =>
    cases hfb : from_buffer d with
    | mk address length =>
      rw [hfb] at hlt
      simp only [Option.getD_some] at hlt
      simp only [ImageSurface.init, hfb, Option.getD_some]
      rw [if_pos hlt]
      exact ⟨rfl, rfl, rfl, fun call hcall => Or.inl hcall⟩

/-- Witness for C10: a 5-byte buffer for a surface needing `4 * 2 = 8` bytes. -/
theorem image_surface_short_buffer_rejected_witness :
    (ImageSurface.init cairoPS World.empty "ARGB32" 1 2
        (Option.some ⟨Option.none, 1, 100, 5⟩) (Option.some 4)).2 =
      Except.error (CairoError.valueError
        "Got a 5 bytes buffer, needs at least 8.") ∧
    (ImageSurface.init cairoPS World.empty "ARGB32" 1 2
        (Option.some ⟨Option.none, 1, 100, 5⟩) (Option.some 4)).1.registry =
      World.empty.registry :=
  ⟨((image_surface_short_buffer_rejected cairoPS World.empty "ARGB32" 1 2
      ⟨Option.none, 1, 100, 5⟩ (Option.some 4) (by decide)).1),
   ((image_surface_short_buffer_rejected cairoPS World.empty "ARGB32" 1 2
      ⟨Option.none, 1, 100, 5⟩ (Option.some 4) (by decide)).2.1)⟩

end Cairocffi
